import Mathlib

/-!
Verification of the flet-iap in-app-purchase control
(src/src/flet_iap/iap.py).

The embedding models the module at the level of already-parsed JSON
payloads: a bridge payload that has been through json.loads is a
string-keyed dictionary of JSON values.  The event decoders
(PurchaseEvent.__init__, ProductDetails.__init__), the platform guard
(InAppPurchase._check_mobile_platform) and the six command methods are
translated directly from the Python source; Python exceptions become
Except errors, and each command returns the list of bridge requests it
issued together with its outcome, so that the no-request-on-failure
properties are directly expressible.
-/

namespace FletIap

/-- A JSON value as produced by json.loads, restricted to the shapes the
payloads of this module use.  Python None (JSON null) is jnull; floating
point amounts are modelled by jnum over Int (the only numeric literal the
module itself supplies is the default 0.0 for rawPrice, modelled as 0). -/
inductive JValue where
  | jstr (s : String)
  | jnum (n : Int)
  | jbool (b : Bool)
  | jnull
deriving DecidableEq, Repr

/-- A parsed structured record: a Python dict keyed by strings.  Keys are
unique in a dict produced by json.loads; lookup takes the first match. -/
def Dict := List (String × JValue)
deriving DecidableEq, Repr

/-- Structural presence: the value stored under a key, if the key exists. -/
def dictGet (d : Dict) (k : String) : Option JValue :=
  List.lookup k d

/-- Python d.get(k, default): the stored value when the key is present
(even when that value is null), the default otherwise. -/
def pyGetD (d : Dict) (k : String) (v : JValue) : JValue :=
  (dictGet d k).getD v

/-- Python d.get(k) with no default: returns Python None both when the key
is absent and when it is present with a null value. -/
def pyGet (d : Dict) (k : String) : Option JValue :=
  match dictGet d k with
  | none => none
  | some JValue.jnull => none
  | some v => some v

/-- PurchaseStatus enumeration (iap.py lines 17-22). -/
inductive PurchaseStatus where
  | pending
  | purchased
  | error
  | restored
  | canceled
deriving DecidableEq, Repr

/-- ProductType enumeration (iap.py lines 25-28). -/
inductive ProductType where
  | consumable
  | non_consumable
  | subscription
deriving DecidableEq, Repr

/-- Errors the Python module can raise, by exception class. -/
inductive IapError where
  | assertionError (msg : String)
  | platformException (msg : String)
  | valueError (msg : String)
  | invalidEnum (enumName : String) (v : JValue)
  | jsonDecodeError (s : String)
deriving DecidableEq, Repr

/-- Python enum lookup by value for PurchaseStatus: the member whose value
equals the string, if any. -/
def purchaseStatusOfString (s : String) : Option PurchaseStatus :=
  if s = "pending" then some PurchaseStatus.pending
  else if s = "purchased" then some PurchaseStatus.purchased
  else if s = "error" then some PurchaseStatus.error
  else if s = "restored" then some PurchaseStatus.restored
  else if s = "canceled" then some PurchaseStatus.canceled
  else none

/-- The call PurchaseStatus(value): Python raises ValueError when the value
matches no member of the enumeration. -/
def purchaseStatusOfValue (v : JValue) : Except IapError PurchaseStatus :=
  match v with
  | JValue.jstr s =>
      match purchaseStatusOfString s with
      | some st => Except.ok st
      | none => Except.error (IapError.invalidEnum "PurchaseStatus" v)
  | _ => Except.error (IapError.invalidEnum "PurchaseStatus" v)

/-- Python enum lookup by value for ProductType. -/
def productTypeOfString (s : String) : Option ProductType :=
  if s = "consumable" then some ProductType.consumable
  else if s = "non_consumable" then some ProductType.non_consumable
  else if s = "subscription" then some ProductType.subscription
  else none

/-- The call ProductType(value): raises ValueError when the value matches
no member of the enumeration. -/
def productTypeOfValue (v : JValue) : Except IapError ProductType :=
  match v with
  | JValue.jstr s =>
      match productTypeOfString s with
      | some t => Except.ok t
      | none => Except.error (IapError.invalidEnum "ProductType" v)
  | _ => Except.error (IapError.invalidEnum "ProductType" v)

/-- The fields PurchaseEvent.__init__ assigns (iap.py lines 43-50).  Python
does not enforce the str annotations, so the pass-through fields keep the
raw JSON value they were assigned. -/
structure PurchaseEvent where
  product_id : JValue
  status : PurchaseStatus
  transaction_id : JValue
  error_message : Option JValue
deriving DecidableEq, Repr

/-- PurchaseEvent.__init__ on an event payload that json.loads has already
parsed into a dict d:
  self.product_id = d.get("productId", "")
  self.status = PurchaseStatus(d.get("status", "error"))
  self.transaction_id = d.get("transactionId", "")
  self.error_message = d.get("errorMessage")
The PurchaseStatus call is the only assignment that can raise. -/
def decodePurchaseEvent (d : Dict) : Except IapError PurchaseEvent :=
  match purchaseStatusOfValue (pyGetD d "status" (JValue.jstr "error")) with
  | Except.error e => Except.error e
  | Except.ok st =>
      Except.ok
        { product_id := pyGetD d "productId" (JValue.jstr "")
          status := st
          transaction_id := pyGetD d "transactionId" (JValue.jstr "")
          error_message := pyGet d "errorMessage" }

/-- The fields ProductDetails.__init__ assigns (iap.py lines 31-40). -/
structure ProductDetails where
  id : JValue
  title : JValue
  description : JValue
  price : JValue
  raw_price : JValue
  currency_code : JValue
  currency_symbol : JValue
  type : ProductType
deriving DecidableEq, Repr

/-- ProductDetails.__init__ on one product record:
  self.id = data.get("id", "") ... and so on, ending with
  self.type = ProductType(data.get("type", "consumable"))
The ProductType call is the only assignment that can raise. -/
def decodeProductDetails (data : Dict) : Except IapError ProductDetails :=
  match productTypeOfValue (pyGetD data "type" (JValue.jstr "consumable")) with
  | Except.error e => Except.error e
  | Except.ok t =>
      Except.ok
        { id := pyGetD data "id" (JValue.jstr "")
          title := pyGetD data "title" (JValue.jstr "")
          description := pyGetD data "description" (JValue.jstr "")
          price := pyGetD data "price" (JValue.jstr "")
          raw_price := pyGetD data "rawPrice" (JValue.jnum 0)
          currency_code := pyGetD data "currencyCode" (JValue.jstr "")
          currency_symbol := pyGetD data "currencySymbol" (JValue.jstr "")
          type := t }

/-- The host platforms that the flet PagePlatform type distinguishes (the
variants the guard compares against, plus the desktop ones it rejects). -/
inductive PagePlatform where
  | ios
  | android
  | macos
  | linux
  | windows
deriving DecidableEq, Repr

/-- The part of the page the guard consults: self.page.platform. -/
structure Page where
  platform : PagePlatform
deriving DecidableEq, Repr

/-- The state of an InAppPurchase control: whether it is attached to a page
(self.page, None before attachment), and the framework attribute slot
backing the product_ids property (None when never set or set to None). -/
structure InAppPurchase where
  page : Option Page
  productIdsAttr : Option (List String)
deriving DecidableEq, Repr

/-- The product_ids property getter:
_get_attr("productIds", data_type="list", def_value=[]) returns the stored
list, or the empty-list default when the attribute is unset. -/
def InAppPurchase.product_ids (c : InAppPurchase) : List String :=
  c.productIdsAttr.getD []

/-- An argument value of an outbound invoke_method call. -/
inductive ArgValue where
  | str (s : String)
  | strList (ids : List String)
deriving DecidableEq, Repr

/-- One outbound bridge request, as issued by self.invoke_method. -/
structure BridgeRequest where
  methodName : String
  arguments : List (String × ArgValue)
  waitForResult : Bool
  waitTimeout : Option Int
deriving DecidableEq, Repr

/-- A fire-and-forget request with the given method name and arguments. -/
def fireRequest (methodName : String) (arguments : List (String × ArgValue)) :
    BridgeRequest :=
  { methodName := methodName
    arguments := arguments
    waitForResult := false
    waitTimeout := none }

/-- InAppPurchase._check_mobile_platform (iap.py lines 150-155):
  assert self.page is not None, "InAppPurchase must be added to page first."
  if self.page.platform not in [PagePlatform.ANDROID, PagePlatform.IOS]:
      raise Exception(...) -/
def checkMobilePlatform (c : InAppPurchase) : Except IapError Unit :=
  match c.page with
  | none =>
      Except.error
        (IapError.assertionError "InAppPurchase must be added to page first.")
  | some p =>
      if p.platform = PagePlatform.android ∨ p.platform = PagePlatform.ios then
        Except.ok ()
      else
        Except.error
          (IapError.platformException
            "InAppPurchase is supported on Android and iOS platforms only.")

/-- Each command returns the bridge requests it issued, in order, together
with its outcome; a raised exception short-circuits, so requests after the
raise point never appear. -/
abbrev CommandResult (α : Type) := List BridgeRequest × Except IapError α

/-- InAppPurchase.initialize: check the platform, then
invoke_method("initialize"). -/
def initializeCommand (c : InAppPurchase) : CommandResult Unit :=
  match checkMobilePlatform c with
  | Except.error e => ([], Except.error e)
  | Except.ok _ => ([fireRequest "initialize" []], Except.ok ())

/-- Python: ids = product_ids or self.product_ids.  The or operator yields
its second operand when the first is falsy, and None and the empty list are
both falsy. -/
def resolveIds (productIds : Option (List String)) (attr : List String) :
    List String :=
  match productIds with
  | none => attr
  | some [] => attr
  | some ids => ids

/-- InAppPurchase.query_products (iap.py lines 162-168):
  self._check_mobile_platform()
  ids = product_ids or self.product_ids
  if not ids: raise ValueError("No product IDs provided")
  self.invoke_method("query_products", arguments={"productIds": ids}) -/
def queryProducts (c : InAppPurchase) (productIds : Option (List String)) :
    CommandResult Unit :=
  match checkMobilePlatform c with
  | Except.error e => ([], Except.error e)
  | Except.ok _ =>
      let ids := resolveIds productIds c.product_ids
      if ids = [] then
        ([], Except.error (IapError.valueError "No product IDs provided"))
      else
        ([fireRequest "query_products" [("productIds", ArgValue.strList ids)]],
          Except.ok ())

/-- InAppPurchase.buy_product: check the platform, then
invoke_method("buy_product", arguments={"productId": product_id}). -/
def buyProduct (c : InAppPurchase) (product_id : String) : CommandResult Unit :=
  match checkMobilePlatform c with
  | Except.error e => ([], Except.error e)
  | Except.ok _ =>
      ([fireRequest "buy_product" [("productId", ArgValue.str product_id)]],
        Except.ok ())

/-- InAppPurchase.restore_purchases: check the platform, then
invoke_method("restore_purchases"). -/
def restorePurchases (c : InAppPurchase) : CommandResult Unit :=
  match checkMobilePlatform c with
  | Except.error e => ([], Except.error e)
  | Except.ok _ => ([fireRequest "restore_purchases" []], Except.ok ())

/-- InAppPurchase.finish_transaction: check the platform, then
invoke_method("finish_transaction", arguments={"transactionId": ...}). -/
def finishTransaction (c : InAppPurchase) (transaction_id : String) :
    CommandResult Unit :=
  match checkMobilePlatform c with
  | Except.error e => ([], Except.error e)
  | Except.ok _ =>
      ([fireRequest "finish_transaction"
          [("transactionId", ArgValue.str transaction_id)]],
        Except.ok ())

/-- The blocking get_past_purchases request with a given wait timeout. -/
def getPastPurchasesRequest (waitTimeout : Option Int) : BridgeRequest :=
  { methodName := "get_past_purchases"
    arguments := []
    waitForResult := true
    waitTimeout := waitTimeout }

/-- InAppPurchase.get_past_purchases (iap.py lines 180-188) with an explicit
wait_timeout argument.  The bridge round-trip invoke_method(...,
wait_for_result=True, wait_timeout=...) is external to this module; its
outcome is supplied as bridgeResult (None when the bridge returned nothing
within the timeout), and the stdlib json.loads applied to a non-empty
result is supplied as jsonLoads (None modelling a JSONDecodeError).  The
source then runs: return json.loads(result) if result else [] — where an
Optional[str] is falsy exactly when it is None or the empty string. -/
def getPastPurchasesWith (c : InAppPurchase) (bridgeResult : Option String)
    (jsonLoads : String → Option (List Dict)) (waitTimeout : Option Int) :
    CommandResult (List Dict) :=
  match checkMobilePlatform c with
  | Except.error e => ([], Except.error e)
  | Except.ok _ =>
      let req := getPastPurchasesRequest waitTimeout
      match bridgeResult with
      | none => ([req], Except.ok [])
      | some s =>
          if s = "" then ([req], Except.ok [])
          else
            match jsonLoads s with
            | none => ([req], Except.error (IapError.jsonDecodeError s))
            | some v => ([req], Except.ok v)

/-- get_past_purchases as called without a wait_timeout argument: the
signature declares wait_timeout: OptionalNumber = 10. -/
def getPastPurchases (c : InAppPurchase) (bridgeResult : Option String)
    (jsonLoads : String → Option (List Dict)) : CommandResult (List Dict) :=
  getPastPurchasesWith c bridgeResult jsonLoads (some 10)

/-- An IapError raised by the platform guard: the assertion that the
control is attached, or the unsupported-platform exception. -/
def isPreconditionError : IapError → Bool
  | IapError.assertionError _ => true
  | IapError.platformException _ => true
  | _ => false

/-- A command outcome that raised a precondition error having issued zero
bridge requests. -/
def failsWithPrecondition {α : Type} (r : CommandResult α) : Bool :=
  match r with
  | ([], Except.error e) => isPreconditionError e
  | _ => false

lemma checkMobilePlatform_ok (c : InAppPurchase) (p : Page)
    (hpage : c.page = some p)
    (hplat : p.platform = PagePlatform.android ∨ p.platform = PagePlatform.ios) :
    checkMobilePlatform c = Except.ok () := by
  simp only [checkMobilePlatform, hpage]
  rw [if_pos hplat]

lemma checkMobilePlatform_fails (c : InAppPurchase)
    (h : c.page = none ∨ ∃ p, c.page = some p ∧
      p.platform ≠ PagePlatform.android ∧ p.platform ≠ PagePlatform.ios) :
    ∃ e, checkMobilePlatform c = Except.error e ∧ isPreconditionError e = true := by
  rcases h with h | ⟨p, hp, h1, h2⟩
  · refine ⟨IapError.assertionError "InAppPurchase must be added to page first.",
      ?_, rfl⟩
    simp [checkMobilePlatform, h]
  · refine ⟨IapError.platformException
      "InAppPurchase is supported on Android and iOS platforms only.", ?_, rfl⟩
    simp [checkMobilePlatform, hp, h1, h2]

/-- C1, counterexample to the claim as stated: the payload
with status "bogus" parses as a structured record and carries an
unrecognized status string, yet decoding does not succeed — the claim
predicts success with status error, but PurchaseStatus("bogus") raises
ValueError, so the decoder propagates an error and produces no event. -/
theorem unrecognized_status_not_defaulted :
    (decodePurchaseEvent [("status", JValue.jstr "bogus")]).toOption = none ∧
    decodePurchaseEvent [("status", JValue.jstr "bogus")] =
      Except.error (IapError.invalidEnum "PurchaseStatus" (JValue.jstr "bogus")) := by
  constructor <;> rfl

/-- C1, amended: a status string that is not one of the five recognized
PurchaseStatus values makes decoding raise a ValueError rather than
default; the error default applies only when the status key is absent
(that case is covered by the missing-key theorem for C2). -/
theorem unrecognized_status_raises (d : Dict) (s : String)
    (hpresent : dictGet d "status" = some (JValue.jstr s))
    (hunrec : purchaseStatusOfString s = none) :
    decodePurchaseEvent d =
      Except.error (IapError.invalidEnum "PurchaseStatus" (JValue.jstr s)) := by
  simp [decodePurchaseEvent, pyGetD, hpresent, purchaseStatusOfValue, hunrec]

/-- C1, witness: the amended theorem applied to a concrete payload whose
status string "definitely-not-a-status" matches no enumeration member. -/
theorem unrecognized_status_raises_witness :
    decodePurchaseEvent [("status", JValue.jstr "definitely-not-a-status")] =
      Except.error (IapError.invalidEnum "PurchaseStatus"
        (JValue.jstr "definitely-not-a-status")) :=
  unrecognized_status_raises [("status", JValue.jstr "definitely-not-a-status")]
    "definitely-not-a-status" rfl (by decide)

/-- C2, counterexample to the claim as stated: the payload carrying only
the key status (with an unrecognized value) omits the subset productId,
transactionId, errorMessage of the four keys, so the claim predicts that
decoding succeeds with defaults; instead the decoder raises on the status
value and produces no event. -/
theorem missing_keys_payload_can_still_fail :
    (decodePurchaseEvent [("status", JValue.jstr "mystery")]).toOption = none := by
  rfl

/-- C2, amended: whenever the status key is absent or holds a recognized
status string, decoding succeeds, and every key the payload omits takes
its default: product_id the empty string, status error, transaction_id
the empty string, error_message None. -/
theorem missing_keys_default (d : Dict)
    (hstatus : dictGet d "status" = none ∨ ∃ s,
      dictGet d "status" = some (JValue.jstr s) ∧
        (purchaseStatusOfString s).isSome = true) :
    (decodePurchaseEvent d).toOption.isSome = true ∧
    (dictGet d "productId" = none →
      (decodePurchaseEvent d).toOption.map PurchaseEvent.product_id =
        some (JValue.jstr "")) ∧
    (dictGet d "status" = none →
      (decodePurchaseEvent d).toOption.map PurchaseEvent.status =
        some PurchaseStatus.error) ∧
    (dictGet d "transactionId" = none →
      (decodePurchaseEvent d).toOption.map PurchaseEvent.transaction_id =
        some (JValue.jstr "")) ∧
    (dictGet d "errorMessage" = none →
      (decodePurchaseEvent d).toOption.map PurchaseEvent.error_message =
        some none) := by
  have hok : ∃ st, purchaseStatusOfValue
      (pyGetD d "status" (JValue.jstr "error")) = Except.ok st ∧
      (dictGet d "status" = none → st = PurchaseStatus.error) := by
    rcases hstatus with h | ⟨s, hs, hrec⟩
    · refine ⟨PurchaseStatus.error, ?_, fun _ => rfl⟩
      simp [pyGetD, h, purchaseStatusOfValue, purchaseStatusOfString]
    · rcases Option.isSome_iff_exists.mp hrec with ⟨st, hst⟩
      refine ⟨st, ?_, fun hnone => ?_⟩
      · simp [pyGetD, hs, purchaseStatusOfValue, hst]
      · rw [hnone] at hs
        exact absurd hs (by simp)
  rcases hok with ⟨st, hst, hdef⟩
  have hd : decodePurchaseEvent d = Except.ok
      { product_id := pyGetD d "productId" (JValue.jstr "")
        status := st
        transaction_id := pyGetD d "transactionId" (JValue.jstr "")
        error_message := pyGet d "errorMessage" } := by
    unfold decodePurchaseEvent
    rw [hst]
  refine ⟨?_, fun h => ?_, fun h => ?_, fun h => ?_, fun h => ?_⟩
  · rw [hd]
    rfl
  · rw [hd]
    simp [Except.toOption, pyGetD, h]
  · rw [hd]
    simp [Except.toOption, hdef h]
  · rw [hd]
    simp [Except.toOption, pyGetD, h]
  · rw [hd]
    simp [Except.toOption, pyGet, h]

/-- C2, witness: the amended theorem applied to the empty payload, which
omits all four keys; every default appears. -/
theorem missing_keys_default_witness :
    ((decodePurchaseEvent []).toOption.isSome = true) ∧
    ((decodePurchaseEvent []).toOption.map PurchaseEvent.product_id =
      some (JValue.jstr "")) ∧
    ((decodePurchaseEvent []).toOption.map PurchaseEvent.status =
      some PurchaseStatus.error) ∧
    ((decodePurchaseEvent []).toOption.map PurchaseEvent.transaction_id =
      some (JValue.jstr "")) ∧
    ((decodePurchaseEvent []).toOption.map PurchaseEvent.error_message =
      some none) := by
  have h := missing_keys_default [] (Or.inl rfl)
  exact ⟨h.1, h.2.1 rfl, h.2.2.1 rfl, h.2.2.2.1 rfl, h.2.2.2.2 rfl⟩

/-- C3, counterexample to the claim as stated: a product record whose type
key holds the unrecognized value "bogus-type" does not decode to a
ProductDetails with type consumable — ProductType("bogus-type") raises
ValueError and decoding of the record fails. -/
theorem unrecognized_product_type_not_defaulted :
    (decodeProductDetails [("type", JValue.jstr "bogus-type")]).toOption = none ∧
    decodeProductDetails [("type", JValue.jstr "bogus-type")] =
      Except.error (IapError.invalidEnum "ProductType"
        (JValue.jstr "bogus-type")) := by
  constructor <;> rfl

/-- C3, amended: when the type key is absent, ProductDetails decoding
succeeds and the type field defaults to consumable; when the type key
holds an unrecognized value, decoding of that record raises a ValueError
instead of defaulting. -/
theorem product_type_defaulting (data : Dict) (s : String) :
    (dictGet data "type" = none →
      (decodeProductDetails data).toOption.map ProductDetails.type =
        some ProductType.consumable) ∧
    (dictGet data "type" = some (JValue.jstr s) → productTypeOfString s = none →
      decodeProductDetails data =
        Except.error (IapError.invalidEnum "ProductType" (JValue.jstr s))) := by
  constructor
  · intro h
    simp [decodeProductDetails, pyGetD, h, productTypeOfValue,
      productTypeOfString, Except.toOption]
  · intro h hunrec
    simp [decodeProductDetails, pyGetD, h, productTypeOfValue, hunrec]

/-- C3, witness: the amended theorem applied to a record with no type key
(defaults to consumable) and to a record with the unrecognized type value
"weird" (decoding fails). -/
theorem product_type_defaulting_witness :
    ((decodeProductDetails []).toOption.map ProductDetails.type =
      some ProductType.consumable) ∧
    (decodeProductDetails [("type", JValue.jstr "weird")] =
      Except.error (IapError.invalidEnum "ProductType" (JValue.jstr "weird"))) :=
  ⟨(product_type_defaulting [] "weird").1 rfl,
    (product_type_defaulting [("type", JValue.jstr "weird")] "weird").2 rfl
      (by decide)⟩

/-- C4: when the control is not attached to a page, or the host platform
is neither Android nor iOS, each of the six commands raises a
configuration/precondition error and issues zero bridge requests. -/
theorem guard_blocks_commands (c : InAppPurchase)
    (ids : Option (List String)) (pid tid : String)
    (br : Option String) (jl : String → Option (List Dict)) (wt : Option Int)
    (h : c.page = none ∨ ∃ p, c.page = some p ∧
      p.platform ≠ PagePlatform.android ∧ p.platform ≠ PagePlatform.ios) :
    failsWithPrecondition (initializeCommand c) = true ∧
    failsWithPrecondition (queryProducts c ids) = true ∧
    failsWithPrecondition (buyProduct c pid) = true ∧
    failsWithPrecondition (restorePurchases c) = true ∧
    failsWithPrecondition (getPastPurchasesWith c br jl wt) = true ∧
    failsWithPrecondition (finishTransaction c tid) = true := by
  rcases checkMobilePlatform_fails c h with ⟨e, hc, he⟩
  refine ⟨?_, ?_, ?_, ?_, ?_, ?_⟩ <;>
    simp [initializeCommand, queryProducts, buyProduct, restorePurchases,
      getPastPurchasesWith, finishTransaction, hc, failsWithPrecondition, he]

/-- C4, witness: an unattached control; every command fails with a
precondition error and an empty request list. -/
theorem guard_blocks_commands_witness :
    failsWithPrecondition (initializeCommand ⟨none, none⟩) = true ∧
    failsWithPrecondition (queryProducts ⟨none, none⟩ none) = true ∧
    failsWithPrecondition (buyProduct ⟨none, none⟩ "coins") = true ∧
    failsWithPrecondition (restorePurchases ⟨none, none⟩) = true ∧
    failsWithPrecondition
      (getPastPurchasesWith ⟨none, none⟩ none (fun _ => none) (some 10)) = true ∧
    failsWithPrecondition (finishTransaction ⟨none, none⟩ "t1") = true :=
  guard_blocks_commands ⟨none, none⟩ none "coins" "t1" none (fun _ => none)
    (some 10) (Or.inl rfl)

/-- C5: on a supported platform, query_products with an absent or empty
explicit ID list and no configured default product IDs raises the
ValueError before any bridge request is issued. -/
theorem query_products_empty_raises (c : InAppPurchase) (p : Page)
    (productIds : Option (List String))
    (hpage : c.page = some p)
    (hplat : p.platform = PagePlatform.android ∨ p.platform = PagePlatform.ios)
    (hdefault : c.product_ids = [])
    (harg : productIds = none ∨ productIds = some []) :
    queryProducts c productIds =
      ([], Except.error (IapError.valueError "No product IDs provided")) := by
  have hc := checkMobilePlatform_ok c p hpage hplat
  rcases harg with h | h <;>
    simp [queryProducts, hc, resolveIds, h, hdefault]

/-- C5, witness: an Android-attached control with no configured defaults;
query_products with the explicit empty list raises the ValueError and
issues no request. -/
theorem query_products_empty_raises_witness :
    queryProducts ⟨some ⟨PagePlatform.android⟩, none⟩ (some []) =
      ([], Except.error (IapError.valueError "No product IDs provided")) :=
  query_products_empty_raises ⟨some ⟨PagePlatform.android⟩, none⟩
    ⟨PagePlatform.android⟩ (some []) rfl (Or.inl rfl) rfl (Or.inr rfl)

/-- C6: on a supported platform, when the bridge returns no result within
the wait budget, get_past_purchases returns the empty list (it neither
hangs nor raises); called without a timeout argument it waits the default
10 time units, and a caller-supplied timeout is passed through to the
blocking bridge request. -/
theorem get_past_purchases_timeout_empty (c : InAppPurchase) (p : Page)
    (jl : String → Option (List Dict)) (wt : Option Int)
    (hpage : c.page = some p)
    (hplat : p.platform = PagePlatform.android ∨ p.platform = PagePlatform.ios) :
    getPastPurchases c none jl =
      ([getPastPurchasesRequest (some 10)], Except.ok []) ∧
    getPastPurchasesWith c none jl wt =
      ([getPastPurchasesRequest wt], Except.ok []) := by
  have hc := checkMobilePlatform_ok c p hpage hplat
  constructor <;> simp [getPastPurchases, getPastPurchasesWith, hc]

/-- C6, witness: an iOS-attached control against a silent bridge returns
the empty list, with the default timeout of 10 and with an explicit
timeout of 3. -/
theorem get_past_purchases_timeout_empty_witness :
    getPastPurchases ⟨some ⟨PagePlatform.ios⟩, none⟩ none (fun _ => none) =
      ([getPastPurchasesRequest (some 10)], Except.ok []) ∧
    getPastPurchasesWith ⟨some ⟨PagePlatform.ios⟩, none⟩ none (fun _ => none)
      (some 3) = ([getPastPurchasesRequest (some 3)], Except.ok []) :=
  get_past_purchases_timeout_empty ⟨some ⟨PagePlatform.ios⟩, none⟩
    ⟨PagePlatform.ios⟩ (fun _ => none) (some 3) rfl (Or.inr rfl)

/-- C7: on a supported platform, query_products(None) with the configured
default list ["a", "b"] issues exactly one query_products bridge request
whose productIds argument is ["a", "b"]. -/
theorem query_products_uses_default_ids (c : InAppPurchase) (p : Page)
    (hpage : c.page = some p)
    (hplat : p.platform = PagePlatform.android ∨ p.platform = PagePlatform.ios)
    (hids : c.productIdsAttr = some ["a", "b"]) :
    queryProducts c none =
      ([fireRequest "query_products"
          [("productIds", ArgValue.strList ["a", "b"])]],
        Except.ok ()) := by
  have hc := checkMobilePlatform_ok c p hpage hplat
  simp [queryProducts, hc, resolveIds, InAppPurchase.product_ids, hids]

/-- C7, witness: an Android-attached control configured with defaults
["a", "b"]; the issued request carries exactly those IDs. -/
theorem query_products_uses_default_ids_witness :
    queryProducts ⟨some ⟨PagePlatform.android⟩, some ["a", "b"]⟩ none =
      ([fireRequest "query_products"
          [("productIds", ArgValue.strList ["a", "b"])]],
        Except.ok ()) :=
  query_products_uses_default_ids ⟨some ⟨PagePlatform.android⟩, some ["a", "b"]⟩
    ⟨PagePlatform.android⟩ rfl (Or.inl rfl) rfl

/-- C8: round-trip of the purchase record with status "purchased",
productId "coins", transactionId "t1".  Serializing this record to JSON
text and parsing it back is the identity on the structured record, so the
composition is decoding the record itself; it yields a PurchaseEvent with
status PURCHASED, product_id "coins", transaction_id "t1" and
error_message None. -/
theorem purchase_record_round_trip :
    decodePurchaseEvent
      [("status", JValue.jstr "purchased"), ("productId", JValue.jstr "coins"),
        ("transactionId", JValue.jstr "t1")] =
      Except.ok
        { product_id := JValue.jstr "coins"
          status := PurchaseStatus.purchased
          transaction_id := JValue.jstr "t1"
          error_message := none } := by
  rfl

/-- C9: query_products with the explicit empty list behaves identically to
query_products with no argument — Python resolves the ID list with the or
operator, and the empty list is falsy, so both fall back to the configured
default; on a supported platform the call raises the validation ValueError
exactly when that default is also empty. -/
theorem query_products_empty_list_is_none (c : InAppPurchase) (p : Page)
    (hpage : c.page = some p)
    (hplat : p.platform = PagePlatform.android ∨ p.platform = PagePlatform.ios) :
    queryProducts c (some []) = queryProducts c none ∧
    ((queryProducts c (some [])).2 =
        Except.error (IapError.valueError "No product IDs provided") ↔
      c.product_ids = []) := by
  have hc := checkMobilePlatform_ok c p hpage hplat
  refine ⟨rfl, ?_⟩
  by_cases h : c.product_ids = [] <;>
    simp [queryProducts, hc, resolveIds, h]

/-- C9, witness: an Android-attached control with no configured defaults;
the two calls coincide and the validation error fires since the default
list is empty. -/
theorem query_products_empty_list_is_none_witness :
    (queryProducts ⟨some ⟨PagePlatform.android⟩, none⟩ (some []) =
      queryProducts ⟨some ⟨PagePlatform.android⟩, none⟩ none) ∧
    ((queryProducts ⟨some ⟨PagePlatform.android⟩, none⟩ (some [])).2 =
        Except.error (IapError.valueError "No product IDs provided") ↔
      InAppPurchase.product_ids ⟨some ⟨PagePlatform.android⟩, none⟩ = []) :=
  query_products_empty_list_is_none ⟨some ⟨PagePlatform.android⟩, none⟩
    ⟨PagePlatform.android⟩ rfl (Or.inl rfl)

/-- C10: on a supported platform, get_past_purchases treats an absent
bridge result and an empty-string bridge result identically (both yield
the empty list, making them indistinguishable), and any non-empty result
is handed to json.loads: the parsed value is returned, and a result that
is not valid JSON makes the call raise. -/
theorem get_past_purchases_result_dispatch (c : InAppPurchase) (p : Page)
    (jl : String → Option (List Dict)) (wt : Option Int) (s : String)
    (hpage : c.page = some p)
    (hplat : p.platform = PagePlatform.android ∨ p.platform = PagePlatform.ios)
    (hs : s ≠ "") :
    getPastPurchasesWith c none jl wt = getPastPurchasesWith c (some "") jl wt ∧
    (getPastPurchasesWith c none jl wt).2 = Except.ok [] ∧
    (getPastPurchasesWith c (some s) jl wt).2 =
      (match jl s with
        | none => Except.error (IapError.jsonDecodeError s)
        | some v => Except.ok v) := by
  have hc := checkMobilePlatform_ok c p hpage hplat
  refine ⟨?_, ?_, ?_⟩
  · simp [getPastPurchasesWith, hc]
  · simp [getPastPurchasesWith, hc]
  · simp only [getPastPurchasesWith, hc]
    rw [if_neg hs]
    cases jl s <;> rfl

/-- C10, witness: an Android-attached control whose bridge answers the
non-empty, non-JSON string "nonsense"; the silent and empty-string cases
coincide and yield the empty list, and the non-JSON response raises. -/
theorem get_past_purchases_result_dispatch_witness :
    (getPastPurchasesWith ⟨some ⟨PagePlatform.android⟩, none⟩ none
        (fun _ => none) none =
      getPastPurchasesWith ⟨some ⟨PagePlatform.android⟩, none⟩ (some "")
        (fun _ => none) none) ∧
    ((getPastPurchasesWith ⟨some ⟨PagePlatform.android⟩, none⟩ none
        (fun _ => none) none).2 = Except.ok []) ∧
    ((getPastPurchasesWith ⟨some ⟨PagePlatform.android⟩, none⟩ (some "nonsense")
        (fun _ => none) none).2 =
      (match (fun (_ : String) => (none : Option (List Dict))) "nonsense" with
        | none => Except.error (IapError.jsonDecodeError "nonsense")
        | some v => Except.ok v)) :=
  get_past_purchases_result_dispatch ⟨some ⟨PagePlatform.android⟩, none⟩
    ⟨PagePlatform.android⟩ (fun _ => none) none "nonsense" rfl (Or.inl rfl)
    (by decide)

end FletIap
